import Mathlib

/-!
Shallow embedding of the event-pipeline parts of the sentry-javascript
repository, together with theorems settling the spec claims about them.

Embedded source files:
* `packages/browser/src/integrations/globalhandlers.ts`
  (`GlobalHandlers.setupOnce`, `_enhanceEventWithInitialFrame`)
* `packages/utils/src/instrument/globalError.ts`
  (`instrumentError`, `captureXhrBreadcrumbToReplay`)
* the SvelteKit server error wrapper (`handleErrorWithSentry`, `isNotFoundError`)

The breadcrumb buffer, dedup processor, sampling step and rate limiter are
not part of the source tree given here; they are modelled from the spec and
marked as such on each definition.

Mutable JavaScript state is made explicit: a function that mutates an object
in place is embedded as a function returning the object's final state, and
the final state of the mutated argument coincides with the return value
whenever the source returns the same reference.
-/

/-! ## Event model (subset of the `Event` type used by `_enhanceEventWithInitialFrame`) -/

/-- One stack frame, with the fields written by `_enhanceEventWithInitialFrame`. -/
structure StackFrame where
  colno : Option Int
  filename : String
  function : String
  in_app : Bool
  lineno : Option Int
deriving DecidableEq, Repr

/-- `stacktrace` member of an exception value. -/
structure Stacktrace where
  frames : Option (List StackFrame)
deriving DecidableEq, Repr

/-- One entry of `event.exception.values`. -/
structure ExceptionValue where
  type : Option String
  value : Option String
  stacktrace : Option Stacktrace
deriving DecidableEq, Repr

/-- `event.exception`. -/
structure ExceptionInfo where
  values : Option (List ExceptionValue)
deriving DecidableEq, Repr

/-- The parts of the SDK `Event` type touched by the embedded code: the
exception tree written by `_enhanceEventWithInitialFrame`, plus two
representative further fields (`level`, `message`) used to express that the
rest of the event is untouched. -/
structure Event where
  exception : Option ExceptionInfo
  level : Option String
  message : Option String
deriving DecidableEq, Repr

/-- The empty object `\x7b\x7d` used by `ev[0] = ev[0] || \x7b\x7d`. -/
def emptyExceptionValue : ExceptionValue :=
  { type := none, value := none, stacktrace := none }

/-- Embedding of `_enhanceEventWithInitialFrame` from
`packages/browser/src/integrations/globalhandlers.ts` (lines 231-259).

The source mutates `event` in place and returns the same object, so the
returned value is also the final state of the caller's event object.
`locationHref` stands for the ambient `getLocationHref()` read.

`line` and `column` arrive from the `onerror` signature as
`number | undefined`; `isNaN(parseInt(x, 10))` holds exactly when the value
is `undefined`, so `colno`/`lineno` keep the original optional value. -/
def enhanceEventWithInitialFrame (locationHref : String) (event : Event)
    (url : Option String) (line column : Option Int) : Event :=
  -- const e = (event.exception = event.exception || \x7b\x7d);
  let e : ExceptionInfo := event.exception.getD { values := none }
  -- const ev = (e.values = e.values || []);
  let ev : List ExceptionValue := e.values.getD []
  -- const ev0 = (ev[0] = ev[0] || \x7b\x7d);
  let ev0 : ExceptionValue := ev.headD emptyExceptionValue
  -- const ev0s = (ev0.stacktrace = ev0.stacktrace || \x7b\x7d);
  let ev0s : Stacktrace := ev0.stacktrace.getD { frames := none }
  -- const ev0sf = (ev0s.frames = ev0s.frames || []);
  let ev0sf : List StackFrame := ev0s.frames.getD []
  let colno : Option Int := column
  let lineno : Option Int := line
  -- const filename = isString(url) && url.length > 0 ? url : getLocationHref();
  let filename : String :=
    match url with
    | some s => if s.length > 0 then s else locationHref
    | none => locationHref
  -- if (ev0sf.length === 0) ev0sf.push(...)
  let newFrames : List StackFrame :=
    if ev0sf.length = 0 then
      ev0sf ++ [{ colno := colno, filename := filename, function := "?",
                  in_app := true, lineno := lineno }]
    else ev0sf
  let newEv0 : ExceptionValue :=
    { ev0 with stacktrace := some { frames := some newFrames } }
  { event with exception := some { values := some (newEv0 :: ev.tail) } }

/-- The frames list reachable at `event.exception.values[0].stacktrace.frames`,
with every missing link read as its JavaScript `|| `-default. -/
def framesOf (event : Event) : List StackFrame :=
  ((((event.exception.getD { values := none }).values.getD []).headD
      emptyExceptionValue).stacktrace.getD { frames := none }).frames.getD []

/-! ## GlobalHandlers.setupOnce (globalhandlers.ts lines 25-79) -/

/-- The two install functions stored in `_installFunc` by the constructor. -/
inductive InstallAction
  | installGlobalOnErrorHandler
  | installGlobalOnUnhandledRejectionHandler
deriving DecidableEq, Repr, Fintype

/-- `GlobalHandlersIntegrations`: the `onerror` / `onunhandledrejection`
option record. -/
structure GHOptions where
  onerror : Bool
  onunhandledrejection : Bool
deriving DecidableEq, Repr, Fintype

/-- `Record<GlobalHandlersIntegrationsOptionKeys, (() => void) | undefined>`:
the `_installFunc` record, one optional install function per key. -/
structure InstallFuncRecord where
  onerror : Option InstallAction
  onunhandledrejection : Option InstallAction
deriving DecidableEq, Repr, Fintype

/-- The mutable state of one `GlobalHandlers` instance. -/
structure GlobalHandlersState where
  options : GHOptions
  installFunc : InstallFuncRecord
deriving DecidableEq, Repr, Fintype

/-- The constructor: `_installFunc` is seeded with both install functions;
the options come from the caller (defaulting to `true`/`true`). -/
def mkGlobalHandlers (options : GHOptions) : GlobalHandlersState :=
  { options := options
    installFunc :=
      { onerror := some InstallAction.installGlobalOnErrorHandler
        onunhandledrejection :=
          some InstallAction.installGlobalOnUnhandledRejectionHandler } }

/-- One iteration of the `for (const key in options)` loop of `setupOnce`,
for the key `onerror`: if the slot holds a function and the option is set,
the function runs and the slot is cleared. Returns the new state and the
list of install functions that ran. -/
def setupOnceKeyOnerror (s : GlobalHandlersState) :
    GlobalHandlersState × List InstallAction :=
  match s.installFunc.onerror with
  | some f =>
      if s.options.onerror then
        ({ s with installFunc := { s.installFunc with onerror := none } }, [f])
      else (s, [])
  | none => (s, [])

/-- Same loop iteration for the key `onunhandledrejection`. -/
def setupOnceKeyOnunhandledrejection (s : GlobalHandlersState) :
    GlobalHandlersState × List InstallAction :=
  match s.installFunc.onunhandledrejection with
  | some f =>
      if s.options.onunhandledrejection then
        ({ s with
           installFunc := { s.installFunc with onunhandledrejection := none } }, [f])
      else (s, [])
  | none => (s, [])

/-- `GlobalHandlers.setupOnce` (lines 63-78): iterates over the two option
keys in insertion order. (The `Error.stackTraceLimit = 50` write touches no
state modelled here.) Returns the new state and the install functions run
during this call, in execution order. -/
def setupOnce (s : GlobalHandlersState) : GlobalHandlersState × List InstallAction :=
  let r1 := setupOnceKeyOnerror s
  let r2 := setupOnceKeyOnunhandledrejection r1.1
  (r2.1, r1.2 ++ r2.2)

/-- Runs `setupOnce` `n` times, concatenating the executed install
functions of every call. -/
def runSetupOnces (s : GlobalHandlersState) : Nat → GlobalHandlersState × List InstallAction
  | 0 => (s, [])
  | n + 1 =>
      let r1 := setupOnce s
      let r2 := runSetupOnces r1.1 n
      (r2.1, r1.2 ++ r2.2)

/-- How many `_installFunc` slots currently hold the action `a`. -/
def slotCount (s : GlobalHandlersState) (a : InstallAction) : Nat :=
  (if s.installFunc.onerror = some a then 1 else 0) +
    (if s.installFunc.onunhandledrejection = some a then 1 else 0)

/-! ## instrumentError (packages/utils/src/instrument/globalError.ts lines 22-50) -/

/-- The data record built by the instrumented `onerror` and passed to
`triggerHandlers('error', handlerData)`. `msg` is kept as a string (the
`string | Event` union of the source collapses to the payload the handlers
see), `error` as the optional error's message. -/
structure HandlerDataError where
  column : Option Int
  error : Option String
  line : Option Int
  msg : String
  url : Option String
deriving DecidableEq, Repr

/-- A pre-existing global `onerror` handler: its `__SENTRY_LOADER__` flag
and its behaviour when applied to the original `onerror` arguments
(the same data as `HandlerDataError`). -/
structure JsOnErrorHandler where
  sentryLoader : Bool
  run : HandlerDataError → Bool

/-- Observable effects of one invocation of the instrumented `onerror`. -/
inductive OnErrorEffect
  | triggerSentryHandlers (data : HandlerDataError)
  | callOldHandler (data : HandlerDataError)
deriving DecidableEq, Repr

/-- The `handlerData` object built at lines 32-38. -/
def mkHandlerDataError (msg : String) (url : Option String)
    (line column : Option Int) (error : Option String) : HandlerDataError :=
  { column := column, error := error, line := line, msg := msg, url := url }

/-- The function `instrumentError` installs as `GLOBAL_OBJ.onerror`, with
`oldOnErrorHandler` being the handler found in `GLOBAL_OBJ.onerror` when
`instrumentError` ran. Returns the effect trace (in execution order) and
the boolean the handler returns to the host. -/
def instrumentedOnError (oldOnErrorHandler : Option JsOnErrorHandler)
    (msg : String) (url : Option String) (line column : Option Int)
    (error : Option String) : List OnErrorEffect × Bool :=
  let handlerData := mkHandlerDataError msg url line column error
  let triggered := [OnErrorEffect.triggerSentryHandlers handlerData]
  match oldOnErrorHandler with
  | some old =>
      if !old.sentryLoader then
        (triggered ++ [OnErrorEffect.callOldHandler handlerData], old.run handlerData)
      else (triggered, false)
  | none => (triggered, false)

/-! ## SvelteKit server error wrapper (handleErrorWithSentry / isNotFoundError) -/

/-- `event.route` of a SvelteKit `RequestEvent`. -/
structure SkRoute where
  id : Option String
deriving DecidableEq, Repr

/-- The part of a SvelteKit `RequestEvent` read by `isNotFoundError`. -/
structure SkRequestEvent where
  route : Option SkRoute
deriving DecidableEq, Repr

/-- The `unknown` error value: either not an object (primitives, null), or
an object whose `stack` field is a string or absent/non-string. -/
inductive SkError
  | nonObject
  | obj (stack : Option String)
deriving DecidableEq, Repr

/-- The `input` argument of the wrapped error handler. -/
structure SkErrorInput where
  error : SkError
  event : SkRequestEvent
deriving DecidableEq, Repr

/-- `!event.route || !event.route.id`: no route object, no id, or an empty
(JavaScript-falsy) id string. -/
def hasNoRouteId (event : SkRequestEvent) : Bool :=
  match event.route with
  | none => true
  | some r =>
      match r.id with
      | none => true
      | some s => s.length = 0

/-- The `rawStack` expression: the error's `stack` string when the error is
an object with a string `stack`, otherwise `''` (the `|| ''` fallback). -/
def rawStack (error : SkError) : String :=
  match error with
  | SkError.nonObject => ""
  | SkError.obj none => ""
  | SkError.obj (some s) => s

/-- `isNotFoundError` (src/unnamed/part_001 lines 44-58). -/
def isNotFoundError (input : SkErrorInput) : Bool :=
  hasNoRouteId input.event && (rawStack input.error).startsWith "Error: Not found:"

/-- The wrapper returned by `handleErrorWithSentry` (lines 19-36), applied
to one input. The first component is the list of errors passed to
`captureException` during the call (empty or a singleton); the second is
the value returned to SvelteKit, always the wrapped handler's result.
`flushIfServerless` only flushes the transport and yields no value. -/
def handleErrorWithSentry (handleError : SkErrorInput → Option String)
    (input : SkErrorInput) : List SkError × Option String :=
  if isNotFoundError input then ([], handleError input)
  else ([input.error], handleError input)

/-! ## captureXhrBreadcrumbToReplay (globalError.ts companion, lines 79-93) -/

/-- `ReplayNetworkRequestData` as assembled by `_prepareXhrData`. -/
structure ReplayNetworkRequestData where
  startTimestamp : Nat
  endTimestamp : Nat
  url : String
  method : Option String
  statusCode : Nat
deriving DecidableEq, Repr

/-- A replay performance entry produced from a network breadcrumb. -/
structure ReplayPerformanceEntry where
  op : String
  data : ReplayNetworkRequestData
deriving DecidableEq, Repr

/-- State of the replay container observed by the capture path: the network
breadcrumbs added so far, and how many times the catch clause logged
(`DEBUG_BUILD && logger.error(...)`). -/
structure ReplayState where
  networkBreadcrumbs : List ReplayPerformanceEntry
  debugLogCount : Nat
deriving DecidableEq, Repr

/-- Modelled from usage (its definition is not under src/):
`makeNetworkReplayBreadcrumb op data` builds a replay performance entry
from prepared data, yielding nothing when the data is `null`. -/
def makeNetworkReplayBreadcrumb (op : String) :
    Option ReplayNetworkRequestData → Option ReplayPerformanceEntry
  | some d => some { op := op, data := d }
  | none => none

/-- Modelled from usage (its definition is not under src/):
`addNetworkBreadcrumb replay result` appends the entry to the replay
container when one was produced. -/
def addNetworkBreadcrumb (st : ReplayState) :
    Option ReplayPerformanceEntry → ReplayState
  | some entry =>
      { st with networkBreadcrumbs := st.networkBreadcrumbs ++ [entry] }
  | none => st

/-- The `try` block of `captureXhrBreadcrumbToReplay`: data preparation
followed by breadcrumb construction and insertion. `prepared` is the
outcome of `_prepareXhrData(breadcrumb, hint, options)` — `Except.error`
when that preparation throws, `Except.ok` with its (possibly null) result
otherwise — so the embedding quantifies over every behaviour of the
preparation step, including throwing ones. -/
def captureXhrBreadcrumbBody
    (prepared : Except String (Option ReplayNetworkRequestData))
    (st : ReplayState) : Except String ReplayState := do
  let data ← prepared
  let result := makeNetworkReplayBreadcrumb "resource.xhr" data
  pure (addNetworkBreadcrumb st result)

/-- `captureXhrBreadcrumbToReplay` (lines 79-93): the `try` body, with the
`catch` clause turning any thrown error into a debug log. The `Except`
return type records whether an exception escapes to the caller. -/
def captureXhrBreadcrumbToReplay
    (prepared : Except String (Option ReplayNetworkRequestData))
    (st : ReplayState) : Except String ReplayState :=
  match captureXhrBreadcrumbBody prepared st with
  | Except.ok st1 => Except.ok st1
  | Except.error _ => Except.ok { st with debugLogCount := st.debugLogCount + 1 }

/-! ## BreadcrumbBuffer (modelled from the spec) -/

/-- A breadcrumb: timestamped record with category, message and level. -/
structure Breadcrumb where
  category : Option String
  message : Option String
  timestamp : Option Nat
deriving DecidableEq, Repr

/-- The last `n` elements of a list, in order. -/
def lastN (n : Nat) (l : List α) : List α :=
  (l.reverse.take n).reverse

/-- Modelled from the spec: the BreadcrumbBuffer implementation is not under
src/. The spec says `addBreadcrumb(b)` appends, evicting oldest if at
capacity `N` — the buffer keeps the last `N` entries of the appended
sequence. -/
def addBreadcrumb (N : Nat) (buffer : List Breadcrumb) (b : Breadcrumb) :
    List Breadcrumb :=
  lastN N (buffer ++ [b])

/-- A whole sequence of `addBreadcrumb` calls, in order. -/
def addBreadcrumbs (N : Nat) (buffer : List Breadcrumb)
    (bs : List Breadcrumb) : List Breadcrumb :=
  bs.foldl (addBreadcrumb N) buffer

/-! ## Dedup processor (modelled from the spec) -/

/-- The stack+message signature the dedup processor compares. -/
structure ErrorSignature where
  message : String
  stack : Option String
deriving DecidableEq, Repr

/-- Modelled from the spec: the `Dedupe` integration is not under src/.
Its state is the single immediately-previous captured event — an
`Option`, so the memory bound O(1) is structural in the type. -/
structure DedupState where
  previousEvent : Option ErrorSignature
deriving DecidableEq, Repr

/-- Modelled from the spec: drop the incoming event iff its signature
equals the single immediately-previous captured event; otherwise deliver
it and remember it as the new previous event. Returns the new state and
whether the event was delivered (`false` means dropped-and-counted). -/
def dedupProcess (st : DedupState) (e : ErrorSignature) : DedupState × Bool :=
  match st.previousEvent with
  | some prev =>
      if prev = e then (st, false)
      else ({ previousEvent := some e }, true)
  | none => ({ previousEvent := some e }, true)

/-- Runs the dedup processor over a capture sequence, returning the
delivered/dropped flag of each capture in order. -/
def dedupRun (st : DedupState) : List ErrorSignature → List Bool
  | [] => []
  | e :: es =>
      let r := dedupProcess st e
      r.2 :: dedupRun r.1 es

/-! ## Sampling (modelled from the spec) -/

/-- Modelled from the spec: the sampling step is not under src/. A captured
event is dropped iff its single drawn random value is `≥ sampleRate`;
`sampleKeep` is the complement (the event survives to the Transport). -/
def sampleDrop (sampleRate draw : ℚ) : Bool :=
  decide (sampleRate ≤ draw)

/-- The event is kept (reaches the Transport) iff it is not dropped. -/
def sampleKeep (sampleRate draw : ℚ) : Bool :=
  !sampleDrop sampleRate draw

/-- A run of captures: each capture is an event paired with the one random
value drawn for it (one tape entry per event, never re-drawn). Returns the
events that reach the Transport, in order. -/
def runCaptures (sampleRate : ℚ) (captures : List (Nat × ℚ)) : List Nat :=
  (captures.filter fun p => sampleKeep sampleRate p.2).map Prod.fst

/-! ## RateLimiter (modelled from the spec) -/

/-- Splits a character list at every occurrence of `sep`. -/
def splitOnChar (sep : Char) : List Char → List (List Char)
  | [] => [[]]
  | c :: cs =>
      match splitOnChar sep cs with
      | [] => if c = sep then [[], []] else [[c]]
      | cur :: rest =>
          if c = sep then [] :: cur :: rest else (c :: cur) :: rest

/-- Parses a nonempty all-digit character list into a natural number. -/
def parseDigitsAux : List Char → Nat → Option Nat
  | [], acc => some acc
  | c :: cs, acc =>
      if c.isDigit then parseDigitsAux cs (acc * 10 + (c.toNat - 48)) else none

/-- Decimal parsing of a retry-after seconds field. -/
def parseDigits : List Char → Option Nat
  | [] => none
  | c :: cs => parseDigitsAux (c :: cs) 0

/-- Rate-limit state: category name to absolute expiry (seconds). -/
abbrev RateLimits : Type := List (String × Nat)

/-- The stored expiry for a category, `0` when absent. -/
def lookupLimit (limits : RateLimits) (category : String) : Nat :=
  match List.find? (fun p => p.1 == category) limits with
  | some p => p.2
  | none => 0

/-- Stores an absolute expiry for a category (last write wins). -/
def setLimit (limits : RateLimits) (category : String) (expiry : Nat) :
    RateLimits :=
  (category, expiry) :: List.filter (fun p => p.1 != category) limits

/-- Modelled from the spec: one `retry-after-seconds:category1;category2:scope`
segment of the `X-Sentry-Rate-Limits` header stores, for each listed
category, the absolute expiry `now + seconds`; an empty category list means
the wildcard `all`. -/
def updateSegment (now : Nat) (limits : RateLimits) (segment : List Char) :
    RateLimits :=
  match splitOnChar ':' segment with
  | retryAfter :: categories :: _ =>
      match parseDigits retryAfter with
      | some seconds =>
          (splitOnChar ';' categories).foldl
            (fun acc cat =>
              if cat.isEmpty then setLimit acc "all" (now + seconds)
              else setLimit acc cat.asString (now + seconds))
            limits
      | none => limits
  | _ => limits

/-- Modelled from the spec: `update(headers, now)` parses the
comma-separated segments of the rate-limit header, storing absolute
expiry timestamps. -/
def updateRateLimits (limits : RateLimits) (header : String) (now : Nat) :
    RateLimits :=
  (splitOnChar ',' header.toList).foldl (updateSegment now) limits

/-- Modelled from the spec: `isRateLimited(category, now)` checks the
category's entry and the wildcard `all` entry, taking the later expiry of
the two; limited iff `now` is before that expiry. -/
def isRateLimited (limits : RateLimits) (category : String) (now : Nat) :
    Bool :=
  decide (now < max (lookupLimit limits category) (lookupLimit limits "all"))

/-! ## Claim theorems -/

/-- C1: a failure inside the capture/enrichment path that is not a
programming contract violation is swallowed: `captureXhrBreadcrumbToReplay`
returns normally for every preparation outcome and replay state, and when
the internal data preparation throws it only logs (increments the debug-log
counter), never propagating the exception to the host application. -/
theorem capture_xhr_breadcrumb_swallows_failures
    (prepared : Except String (Option ReplayNetworkRequestData))
    (st : ReplayState) :
    (∃ st1, captureXhrBreadcrumbToReplay prepared st = Except.ok st1)
    ∧ (∀ e, prepared = Except.error e →
        captureXhrBreadcrumbToReplay prepared st =
          Except.ok { st with debugLogCount := st.debugLogCount + 1 }) := by
  constructor
  · cases prepared with
    | error e => exact ⟨_, rfl⟩
    | ok data => exact ⟨_, rfl⟩
  · intro e he
    subst he
    rfl

/-- Witness for C1: with a throwing preparation and an empty replay state,
the call returns normally with only the debug-log counter incremented. -/
theorem capture_xhr_breadcrumb_swallows_failures_witness :
    captureXhrBreadcrumbToReplay (Except.error "boom")
        { networkBreadcrumbs := [], debugLogCount := 0 } =
      Except.ok { networkBreadcrumbs := [], debugLogCount := 1 } :=
  (capture_xhr_breadcrumb_swallows_failures (Except.error "boom")
    { networkBreadcrumbs := [], debugLogCount := 0 }).2 "boom" rfl

/-- C2 counterexample: the claim says the caller's original event object is
unchanged after enrichment, but `_enhanceEventWithInitialFrame` mutates the
event in place (and returns that same object): for an event with no
exception data, the caller's event afterwards carries a synthetic initial
frame, so it differs from the original value. -/
theorem enhance_event_mutates_counterexample :
    ¬ enhanceEventWithInitialFrame "https://example.com/page"
        { exception := none, level := none, message := none }
        (some "https://example.com/app.js") (some 10) (some 5) =
      { exception := none, level := none, message := none } := by
  decide

/-- Equation lemma: the frames reachable after enrichment are the frames
reachable before, with one synthetic frame appended when there were none. -/
theorem framesOf_enhance (locationHref : String) (event : Event)
    (url : Option String) (line column : Option Int) :
    framesOf (enhanceEventWithInitialFrame locationHref event url line column) =
      if (framesOf event).length = 0 then
        framesOf event ++
          [{ colno := column,
             filename :=
               match url with
               | some s => if s.length > 0 then s else locationHref
               | none => locationHref,
             function := "?", in_app := true, lineno := line }]
      else framesOf event := rfl

/-- C2 (amended): `_enhanceEventWithInitialFrame` mutates the input event in
place and returns the same (now enriched) object: afterwards the caller's
event keeps all its non-exception fields, and its
`exception.values[0].stacktrace.frames` is non-empty. -/
theorem enhance_event_mutates_in_place (locationHref : String) (event : Event)
    (url : Option String) (line column : Option Int) :
    (enhanceEventWithInitialFrame locationHref event url line column).level =
        event.level
    ∧ (enhanceEventWithInitialFrame locationHref event url line column).message =
        event.message
    ∧ framesOf (enhanceEventWithInitialFrame locationHref event url line column) ≠
        [] := by
  refine ⟨rfl, rfl, ?_⟩
  rw [framesOf_enhance]
  split
  · simp
  · next h =>
      intro hc
      exact h (by simp [hc])

/-- Witness for C2 (amended): the enrichment of a concrete empty event
preserves `level`/`message` and creates a non-empty frames list. -/
theorem enhance_event_mutates_in_place_witness :
    (enhanceEventWithInitialFrame "https://example.com/page"
          { exception := none, level := none, message := none }
          (some "https://example.com/app.js") (some 10) (some 5)).level = none
    ∧ (enhanceEventWithInitialFrame "https://example.com/page"
          { exception := none, level := none, message := none }
          (some "https://example.com/app.js") (some 10) (some 5)).message = none
    ∧ framesOf (enhanceEventWithInitialFrame "https://example.com/page"
          { exception := none, level := none, message := none }
          (some "https://example.com/app.js") (some 10) (some 5)) ≠ [] :=
  enhance_event_mutates_in_place "https://example.com/page"
    { exception := none, level := none, message := none }
    (some "https://example.com/app.js") (some 10) (some 5)

/-- C7: frame enrichment is deterministic in its arguments: whenever the
url is a non-empty string, `_enhanceEventWithInitialFrame` does not read
the ambient `getLocationHref()`, so its output is determined solely by
(event, url, line, column) — two runs under different ambient locations
produce equal events. -/
theorem enhance_event_deterministic (event : Event) (url : String)
    (line column : Option Int) (h : url.length > 0) (href1 href2 : String) :
    enhanceEventWithInitialFrame href1 event (some url) line column =
      enhanceEventWithInitialFrame href2 event (some url) line column := by
  unfold enhanceEventWithInitialFrame
  simp [h]

/-- Witness for C7: a concrete non-empty url gives the same enriched event
under two different ambient locations. -/
theorem enhance_event_deterministic_witness :
    ("app.js" : String).length > 0
    ∧ enhanceEventWithInitialFrame "https://one.example"
          { exception := none, level := none, message := none }
          (some "app.js") (some 1) (some 2) =
        enhanceEventWithInitialFrame "https://two.example"
          { exception := none, level := none, message := none }
          (some "app.js") (some 1) (some 2) :=
  ⟨by decide,
    enhance_event_deterministic
      { exception := none, level := none, message := none }
      "app.js" (some 1) (some 2) (by decide) "https://one.example"
      "https://two.example"⟩

/-- C4: the dedup processor keeps only the single immediately-previous
captured event (its state is one `Option`): capturing the identical error
twice in a row delivers the first and drops the second, and capturing it a
third time after a different error in between delivers it again, for two
delivered events of that error in total. -/
theorem dedup_compares_only_previous_event (e1 e2 : ErrorSignature)
    (h : e1 ≠ e2) :
    dedupRun { previousEvent := none } [e1, e1] = [true, false]
    ∧ dedupRun { previousEvent := none } [e1, e1, e2, e1] =
        [true, false, true, true] := by
  constructor <;> simp [dedupRun, dedupProcess, h, Ne.symm h]

/-- Witness for C4: two concrete distinct error signatures. -/
theorem dedup_compares_only_previous_event_witness :
    dedupRun { previousEvent := none }
        [⟨"a", none⟩, ⟨"a", none⟩] = [true, false]
    ∧ dedupRun { previousEvent := none }
        [⟨"a", none⟩, ⟨"a", none⟩, ⟨"b", none⟩, ⟨"a", none⟩] =
      [true, false, true, true] :=
  dedup_compares_only_previous_event ⟨"a", none⟩ ⟨"b", none⟩ (by decide)

/-- C10: the SvelteKit server error wrapper captures the error iff the
input is not a "Not found" error (no route id on the request event and a
stack starting with the literal prefix), and in every case it returns the
wrapped original handler's result on the input. -/
theorem handle_error_with_sentry_captures_iff_not_found
    (handleError : SkErrorInput → Option String) (input : SkErrorInput) :
    ((handleErrorWithSentry handleError input).1 = [input.error] ↔
        ¬ (hasNoRouteId input.event = true ∧
            (rawStack input.error).startsWith "Error: Not found:" = true))
    ∧ ((handleErrorWithSentry handleError input).1 = [] ↔
        isNotFoundError input = true)
    ∧ (handleErrorWithSentry handleError input).2 = handleError input := by
  cases h : isNotFoundError input with
  | true =>
      have hab : hasNoRouteId input.event = true ∧
          (rawStack input.error).startsWith "Error: Not found:" = true := by
        simpa [isNotFoundError, Bool.and_eq_true] using h
      simp [handleErrorWithSentry, h, hab]
  | false =>
      have hab : ¬ (hasNoRouteId input.event = true ∧
          (rawStack input.error).startsWith "Error: Not found:" = true) := by
        simpa [isNotFoundError, Bool.and_eq_true] using h
      simp [handleErrorWithSentry, h, hab]

/-- Witness for C10: a genuine error (route id present, ordinary stack) is
captured, and the wrapped handler's result is forwarded. -/
theorem handle_error_with_sentry_captures_iff_not_found_witness :
    (handleErrorWithSentry (fun _ => some "rendered")
          { error := SkError.obj (some "TypeError: boom"),
            event := { route := some { id := some "/items" } } }).1 =
        [SkError.obj (some "TypeError: boom")]
    ∧ (handleErrorWithSentry (fun _ => some "rendered")
          { error := SkError.obj (some "TypeError: boom"),
            event := { route := some { id := some "/items" } } }).2 =
        some "rendered" := by
  have h := handle_error_with_sentry_captures_iff_not_found
    (fun _ => some "rendered")
    { error := SkError.obj (some "TypeError: boom"),
      event := { route := some { id := some "/items" } } }
  exact ⟨h.1.mpr (by decide), h.2.2⟩

/-- An old handler used by the C9 witness: not a loader stub, and returning
`true` on the message `"boom"`. -/
def demoOldOnErrorHandler : JsOnErrorHandler :=
  { sentryLoader := false, run := fun d => d.msg == "boom" }

/-- C9: the instrumented global `onerror` preserves the host's previously
installed handler: every invocation first triggers the Sentry handlers;
then, if a previous handler existed and is not marked `__SENTRY_LOADER__`,
it is called with the original arguments and its return value is returned;
otherwise the instrumented handler returns `false`. -/
theorem instrumented_onerror_preserves_previous_handler
    (old : Option JsOnErrorHandler) (msg : String) (url : Option String)
    (line column : Option Int) (error : Option String) :
    ((instrumentedOnError old msg url line column error).1.head? =
        some (OnErrorEffect.triggerSentryHandlers
          (mkHandlerDataError msg url line column error)))
    ∧ (∀ o, old = some o → o.sentryLoader = false →
        (instrumentedOnError old msg url line column error).1 =
            [OnErrorEffect.triggerSentryHandlers
               (mkHandlerDataError msg url line column error),
             OnErrorEffect.callOldHandler
               (mkHandlerDataError msg url line column error)]
          ∧ (instrumentedOnError old msg url line column error).2 =
              o.run (mkHandlerDataError msg url line column error))
    ∧ ((∀ o, old = some o → o.sentryLoader = true) →
        (instrumentedOnError old msg url line column error).2 = false
        ∧ (instrumentedOnError old msg url line column error).1 =
            [OnErrorEffect.triggerSentryHandlers
              (mkHandlerDataError msg url line column error)]) := by
  rcases old with _ | o
  · refine ⟨rfl, ?_, ?_⟩
    · intro o h
      cases h
    · intro _
      exact ⟨rfl, rfl⟩
  · cases hl : o.sentryLoader
    · refine ⟨?_, ?_, ?_⟩
      · simp [instrumentedOnError, hl]
      · intro o1 h1 h2
        cases h1
        simp [instrumentedOnError, hl]
      · intro hall
        have := hall o rfl
        rw [hl] at this
        cases this
    · refine ⟨?_, ?_, ?_⟩
      · simp [instrumentedOnError, hl]
      · intro o1 h1 h2
        cases h1
        rw [hl] at h2
        cases h2
      · intro _
        constructor <;> simp [instrumentedOnError, hl]

/-- Witness for C9: with a concrete non-loader previous handler, the
instrumented handler triggers Sentry first and returns the old handler's
value (`true` on this input). -/
theorem instrumented_onerror_preserves_previous_handler_witness :
    (instrumentedOnError (some demoOldOnErrorHandler) "boom" none none none
          none).1.head? =
        some (OnErrorEffect.triggerSentryHandlers
          (mkHandlerDataError "boom" none none none none))
    ∧ (instrumentedOnError (some demoOldOnErrorHandler) "boom" none none none
          none).2 = true := by
  have h := instrumented_onerror_preserves_previous_handler
    (some demoOldOnErrorHandler) "boom" none none none none
  refine ⟨h.1, ?_⟩
  have h2 := h.2.1 demoOldOnErrorHandler rfl rfl
  rw [h2.2]
  rfl

/-- C6: a category is rate limited iff `now` is before the later of its own
stored expiry and the wildcard `all` expiry; after updating with the header
segment `"60:error:key"` at time `t`, `isRateLimited "error" now` holds for
all `now` in `[t, t + 60)` and no longer holds at `t + 61`. -/
theorem rate_limiter_window (t now : Nat) :
    (∀ (limits : RateLimits) (category : String) (n : Nat),
        isRateLimited limits category n = true ↔
          n < max (lookupLimit limits category) (lookupLimit limits "all"))
    ∧ (t ≤ now → now < t + 60 →
        isRateLimited (updateRateLimits [] "60:error:key" t) "error" now = true)
    ∧ isRateLimited (updateRateLimits [] "60:error:key" t) "error" (t + 61) =
        false := by
  have hupd : updateRateLimits [] "60:error:key" t = [("error", t + 60)] := rfl
  have hcat : lookupLimit [("error", t + 60)] "error" = t + 60 := rfl
  have hall : lookupLimit [("error", t + 60)] "all" = 0 := rfl
  refine ⟨fun limits category n => by simp [isRateLimited], ?_, ?_⟩
  · intro _ h2
    rw [hupd]
    simp [isRateLimited, hcat, hall]
    omega
  · rw [hupd]
    simp [isRateLimited, hcat, hall]

/-- Witness for C6: updating at `t = 100` limits the `error` category at
`now = 130` and no longer at `now = 161`. -/
theorem rate_limiter_window_witness :
    isRateLimited (updateRateLimits [] "60:error:key" 100) "error" 130 = true
    ∧ isRateLimited (updateRateLimits [] "60:error:key" 100) "error" 161 =
        false :=
  ⟨(rate_limiter_window 100 130).2.1 (by decide) (by decide),
    (rate_limiter_window 100 161).2.2⟩

/-- C5: sampling draws one value per event and drops the event iff the
value is `≥ sampleRate`: with `sampleRate = 0` no captured event reaches
the Transport, with `sampleRate = 1` every captured event does, for every
random tape whose draws lie in `[0, 1)`. -/
theorem sampling_zero_and_one (captures : List (Nat × ℚ))
    (hdraws : ∀ p ∈ captures, 0 ≤ p.2 ∧ p.2 < 1) :
    runCaptures 0 captures = []
    ∧ runCaptures 1 captures = captures.map Prod.fst
    ∧ (∀ rate draw : ℚ, sampleDrop rate draw = true ↔ rate ≤ draw) := by
  refine ⟨?_, ?_, fun rate draw => by simp [sampleDrop]⟩
  · unfold runCaptures
    have hf : captures.filter (fun p => sampleKeep 0 p.2) = [] := by
      rw [List.filter_eq_nil_iff]
      intro p hp
      have h0 := (hdraws p hp).1
      simp [sampleKeep, sampleDrop, h0]
    rw [hf]
    rfl
  · unfold runCaptures
    have hf : captures.filter (fun p => sampleKeep 1 p.2) = captures := by
      rw [List.filter_eq_self]
      intro p hp
      have h1 := (hdraws p hp).2
      simp [sampleKeep, sampleDrop]
      linarith
    rw [hf]

/-- Witness for C5: one capture with draw `1/2` is dropped at rate `0` and
kept at rate `1`. -/
theorem sampling_zero_and_one_witness :
    runCaptures 0 [(1, (1 : ℚ)/2)] = []
    ∧ runCaptures 1 [(1, (1 : ℚ)/2)] = [1] := by
  have h := sampling_zero_and_one [(1, (1 : ℚ)/2)] (by
    intro p hp
    simp only [List.mem_singleton] at hp
    subst hp
    norm_num)
  exact ⟨h.1, by rw [h.2.1]; rfl⟩

/-- Trimming to the last `N` before appending more does not change the last
`N` of the whole. -/
theorem lastN_append_lastN {α : Type} (N : Nat) (l m : List α) :
    lastN N (lastN N l ++ m) = lastN N (l ++ m) := by
  unfold lastN
  rw [List.reverse_append, List.reverse_reverse, List.reverse_append,
    List.take_append_eq_append_take, List.take_append_eq_append_take,
    List.take_take, inf_eq_left.mpr (Nat.sub_le _ _)]

/-- A breadcrumb sequence pushed onto a trimmed buffer leaves the last `N`
of buffer-plus-sequence. -/
theorem addBreadcrumbs_lastN (N : Nat) (bs : List Breadcrumb) :
    ∀ buffer, addBreadcrumbs N (lastN N buffer) bs = lastN N (buffer ++ bs) := by
  induction bs with
  | nil =>
      intro buffer
      simp [addBreadcrumbs]
  | cons b tl ih =>
      intro buffer
      have h1 : addBreadcrumbs N (lastN N buffer) (b :: tl) =
          addBreadcrumbs N (addBreadcrumb N (lastN N buffer) b) tl := rfl
      have h2 : addBreadcrumb N (lastN N buffer) b = lastN N (buffer ++ [b]) :=
        lastN_append_lastN N buffer [b]
      rw [h1, h2, ih (buffer ++ [b])]
      simp

/-- C3: after any sequence of more than `N` `addBreadcrumb` calls on an
empty capacity-`N` buffer, the buffer holds exactly the last `N`
breadcrumbs of the sequence, in insertion order. -/
theorem breadcrumb_buffer_keeps_last_N (N : Nat) (bs : List Breadcrumb)
    (h : N < bs.length) :
    addBreadcrumbs N [] bs = bs.drop (bs.length - N)
    ∧ (addBreadcrumbs N [] bs).length = N := by
  have h0 : ([] : List Breadcrumb) = lastN N [] := by simp [lastN]
  have h1 : addBreadcrumbs N [] bs = lastN N bs := by
    rw [h0, addBreadcrumbs_lastN N bs []]
    simp
  have h2 : lastN N bs = bs.drop (bs.length - N) := by
    unfold lastN
    rw [List.reverse_take]
    simp
  refine ⟨h1.trans h2, ?_⟩
  rw [h1, h2]
  simp only [List.length_drop]
  omega

/-- Witness for C3: pushing 4 breadcrumbs into a capacity-2 buffer leaves
exactly the last two, in order. -/
theorem breadcrumb_buffer_keeps_last_N_witness :
    2 < ([⟨none, some "1", none⟩, ⟨none, some "2", none⟩,
          ⟨none, some "3", none⟩, ⟨none, some "4", none⟩] :
        List Breadcrumb).length
    ∧ addBreadcrumbs 2 []
        [⟨none, some "1", none⟩, ⟨none, some "2", none⟩,
         ⟨none, some "3", none⟩, ⟨none, some "4", none⟩] =
      [⟨none, some "3", none⟩, ⟨none, some "4", none⟩] := by
  have h := breadcrumb_buffer_keeps_last_N 2
    [⟨none, some "1", none⟩, ⟨none, some "2", none⟩,
     ⟨none, some "3", none⟩, ⟨none, some "4", none⟩] (by decide)
  exact ⟨by decide, by rw [h.1]; rfl⟩

/-- One `setupOnce` call: install functions executed during the call, plus
those still in slots afterwards, never exceed those in slots beforehand. -/
theorem setupOnce_slot_step : ∀ (s : GlobalHandlersState) (a : InstallAction),
    (setupOnce s).2.count a + slotCount (setupOnce s).1 a ≤ slotCount s a := by
  decide

/-- Iterating `setupOnce`: the total number of executions of an install
function is bounded by the slots holding it initially. -/
theorem runSetupOnces_count (n : Nat) :
    ∀ (s : GlobalHandlersState) (a : InstallAction),
      (runSetupOnces s n).2.count a ≤ slotCount s a := by
  induction n with
  | zero =>
      intro s a
      simp [runSetupOnces]
  | succ n ih =>
      intro s a
      have h1 := setupOnce_slot_step s a
      have h2 := ih (setupOnce s).1 a
      simp only [runSetupOnces, List.count_append]
      omega

/-- C8: on a freshly constructed `GlobalHandlers` instance with any
options, every sequence of `setupOnce()` calls runs each install function
at most once: a run clears its `_installFunc` slot, and runs only happen
from a non-cleared slot. -/
theorem setup_once_installs_at_most_once (options : GHOptions) (n : Nat)
    (a : InstallAction) :
    (runSetupOnces (mkGlobalHandlers options) n).2.count a ≤ 1 := by
  have h := runSetupOnces_count n (mkGlobalHandlers options) a
  have hs : slotCount (mkGlobalHandlers options) a = 1 := by
    cases a <;> rfl
  omega

/-- Witness for C8: three `setupOnce` calls on a default-option instance
run the `onerror` installer at most once. -/
theorem setup_once_installs_at_most_once_witness :
    (runSetupOnces
        (mkGlobalHandlers { onerror := true, onunhandledrejection := true })
        3).2.count InstallAction.installGlobalOnErrorHandler ≤ 1 :=
  setup_once_installs_at_most_once
    { onerror := true, onunhandledrejection := true } 3
    InstallAction.installGlobalOnErrorHandler
